import Mathlib

/-!
Verification of the core of the checkedthreads Valgrind tool
(src/valgrind/checkedthreads_main.c): the three-level ownership page
table, the covert command protocol, and the per-access monitor.

The C code is a sequential event handler over global mutable state; it is
embedded here by explicit state passing.  Machine integers become Nat/Int
with explicit truncation where the C code truncates: the address macros
cast the address to the 32-bit `UInt` before shifting, and the owner byte
store truncates the current thread id to an unsigned char (mod 256).
The Valgrind host services (`VG_(calloc)`, `VG_(printf)`, stack-bound
queries) are modelled as: lazy allocation of zero-filled nodes, a list of
emitted diagnostics, and an external parameter `se` giving the value
`ct_stack_end()` would return at this event.
-/


/-- Pointwise functional update, modelling an in-place array/pointer write. -/
def upd {α : Type} (f : Nat → α) (i : Nat) (v : α) : Nat → α :=
  fun j => if j = i then v else f j

/-! Address slicing macros.  In the C source each macro first casts the
64-bit address to `UInt` (32 bits) — `(UInt)addr` — and then shifts and
masks; the cast is modelled by `% 2^32`. -/

/-- Macro `L2_PAGETAB(addr) = (((UInt)addr >> 24) >> 12) & 0xfff`. -/
def L2_PAGETAB (a : Nat) : Nat := (((a % 2^32) >>> 24) >>> 12) &&& 0xfff

/-- Macro `L1_PAGETAB(addr) = ((UInt)addr >> 24) & 0xfff`. -/
def L1_PAGETAB (a : Nat) : Nat := ((a % 2^32) >>> 24) &&& 0xfff

/-- Macro `PAGE(addr) = ((UInt)addr >> 12) & 0xfff`. -/
def PAGE (a : Nat) : Nat := ((a % 2^32) >>> 12) &&& 0xfff

/-- Macro `BYTE_IN_PAGE(addr) = (UInt)addr & 0xfff`. -/
def BYTE_IN_PAGE (a : Nat) : Nat := (a % 2^32) &&& 0xfff

/-- Struct `ct_page`: one owner id (an `unsigned char`, hence < 256 by
construction) per byte of a 4096-byte page.  The `prev_alloc_page` link is
represented by the allocation lists of the parent level; the dead `index`
field is dropped. -/
structure ct_page where
  owning_thread : Nat → Nat

/-- Struct `ct_pagetab_L1`: 4096 page slots plus the allocation list
(`last_alloc_page` chain), kept as the list of allocated slot indices,
most recently allocated first. -/
structure ct_pagetab_L1 where
  pages : Nat → Option ct_page
  last_alloc_page : List Nat

/-- Struct `ct_pagetab_L2`: 4096 L1 slots plus the allocation list. -/
structure ct_pagetab_L2 where
  pagetabs_L1 : Nat → Option ct_pagetab_L1
  last_alloc_pagetab_L1 : List Nat

/-- Struct `ct_pagetab_L3`: 4096 L2 slots plus the allocation list. -/
structure ct_pagetab_L3 where
  pagetabs_L2 : Nat → Option ct_pagetab_L2
  last_alloc_pagetab_L2 : List Nat

/-- A freshly `VG_(calloc)`ed page: all owner bytes zero. -/
def ct_page_init : ct_page := { owning_thread := fun _ => 0 }

/-- A freshly `VG_(calloc)`ed L1 node: all slots null, empty list. -/
def ct_pagetab_L1_init : ct_pagetab_L1 := { pages := fun _ => none, last_alloc_page := [] }

/-- A freshly `VG_(calloc)`ed L2 node: all slots null, empty list. -/
def ct_pagetab_L2_init : ct_pagetab_L2 :=
  { pagetabs_L1 := fun _ => none, last_alloc_pagetab_L1 := [] }

/-- The initial value of the global `g_ct_pagetab_L3 = {{0},0}`. -/
def ct_pagetab_L3_init : ct_pagetab_L3 :=
  { pagetabs_L2 := fun _ => none, last_alloc_pagetab_L2 := [] }

/-- Function `ct_get_page`: walks L3 → L2 → L1 → page along the sliced
address, lazily allocating any missing node, threading each new node onto
its parent's allocation list and linking it into the parent's slot array.
Returns the updated table together with the page for `a`. -/
def ct_get_page (t : ct_pagetab_L3) (a : Nat) : ct_pagetab_L3 × ct_page :=
  let i2 := L2_PAGETAB a
  let i1 := L1_PAGETAB a
  let ip := PAGE a
  let pt2 := (t.pagetabs_L2 i2).getD ct_pagetab_L2_init
  let pt1 := (pt2.pagetabs_L1 i1).getD ct_pagetab_L1_init
  let page := (pt1.pages ip).getD ct_page_init
  let pt1' : ct_pagetab_L1 :=
    { pages := upd pt1.pages ip (some page)
      last_alloc_page :=
        match pt1.pages ip with
        | none => ip :: pt1.last_alloc_page
        | some _ => pt1.last_alloc_page }
  let pt2' : ct_pagetab_L2 :=
    { pagetabs_L1 := upd pt2.pagetabs_L1 i1 (some pt1')
      last_alloc_pagetab_L1 :=
        match pt2.pagetabs_L1 i1 with
        | none => i1 :: pt2.last_alloc_pagetab_L1
        | some _ => pt2.last_alloc_pagetab_L1 }
  let t' : ct_pagetab_L3 :=
    { pagetabs_L2 := upd t.pagetabs_L2 i2 (some pt2')
      last_alloc_pagetab_L2 :=
        match t.pagetabs_L2 i2 with
        | none => i2 :: t.last_alloc_pagetab_L2
        | some _ => t.last_alloc_pagetab_L2 }
  (t', page)

/-- Observer for the Ownership Store: the owner id recorded for byte `a`,
0 (unowned) when no node on the path has been allocated.  The default
nodes are zero-filled, so reading through `getD` with the freshly
initialized nodes yields exactly the C lookup result. -/
def ct_owner_of (t : ct_pagetab_L3) (a : Nat) : Nat :=
  (((((t.pagetabs_L2 (L2_PAGETAB a)).getD ct_pagetab_L2_init).pagetabs_L1
      (L1_PAGETAB a)).getD ct_pagetab_L1_init).pages (PAGE a)).getD ct_page_init
    |>.owning_thread (BYTE_IN_PAGE a)

/-- Writing a page back through the path of address `a`, modelling the C
in-place write `page->owning_thread[i] = v` through the pointer returned
by `ct_get_page` (the path is always allocated at the point of use). -/
def ct_put_page (t : ct_pagetab_L3) (a : Nat) (page : ct_page) : ct_pagetab_L3 :=
  match t.pagetabs_L2 (L2_PAGETAB a) with
  | none => t
  | some pt2 =>
    match pt2.pagetabs_L1 (L1_PAGETAB a) with
    | none => t
    | some pt1 =>
      let pt1' : ct_pagetab_L1 := { pt1 with pages := upd pt1.pages (PAGE a) (some page) }
      let pt2' : ct_pagetab_L2 :=
        { pt2 with pagetabs_L1 := upd pt2.pagetabs_L1 (L1_PAGETAB a) (some pt1') }
      { t with pagetabs_L2 := upd t.pagetabs_L2 (L2_PAGETAB a) (some pt2') }

/-- The statement `page->owning_thread[BYTE_IN_PAGE(addr)] = v` performed
on the page returned by `ct_get_page` for `a` (allocating as the C loop
body just did). -/
def ct_set_owner (t : ct_pagetab_L3) (a : Nat) (v : Nat) : ct_pagetab_L3 :=
  let r := ct_get_page t a
  ct_put_page r.1 a
    { r.2 with owning_thread := upd r.2.owning_thread (BYTE_IN_PAGE a) v }

/-- Sum of `f` over `0, …, n-1` (used to count allocated slots). -/
def countSlots (f : Nat → Nat) : Nat → Nat
  | 0 => 0
  | n + 1 => countSlots f n + f n

/-- Total number of allocated page-table nodes (pages, L1 nodes, L2
nodes) reachable from the top-level slot array. -/
def ct_nodeCount (t : ct_pagetab_L3) : Nat :=
  countSlots (fun i2 =>
    match t.pagetabs_L2 i2 with
    | none => 0
    | some pt2 => 1 + countSlots (fun i1 =>
        match pt2.pagetabs_L1 i1 with
        | none => 0
        | some pt1 => 1 + countSlots (fun ip =>
            match pt1.pages ip with
            | none => 0
            | some _ => 1) 4096) 4096) 4096

/-- Function `ct_clear_pagetab`: walks the allocation lists freeing every
page, then every L1 node, then every L2 node, then zeroes the top-level
slot array (`VG_(memset)`) and resets the list head.  In this heap-free
embedding the resulting table is the freshly initialized empty table. -/
def ct_clear_pagetab (_t : ct_pagetab_L3) : ct_pagetab_L3 := ct_pagetab_L3_init

/-- Constant `MAGIC 0x12345678`. -/
def MAGIC : Nat := 0x12345678

/-- Bytes of the constant `CONST_MAGIC "Valgrind command"` (ASCII). -/
def CONST_MAGIC : List Nat :=
  [86, 97, 108, 103, 114, 105, 110, 100, 32, 99, 111, 109, 109, 97, 110, 100]

/-- Bytes of the opcode name `"begin_for"`. -/
def OP_BEGIN_FOR : List Nat := [98, 101, 103, 105, 110, 95, 102, 111, 114]

/-- Bytes of the opcode name `"end_for"`. -/
def OP_END_FOR : List Nat := [101, 110, 100, 95, 102, 111, 114]

/-- Bytes of the opcode name `"iter"`. -/
def OP_ITER : List Nat := [105, 116, 101, 114]

/-- Bytes of the opcode name `"done"`. -/
def OP_DONE : List Nat := [100, 111, 110, 101]

/-- Bytes of the opcode name `"thrd"`. -/
def OP_THRD : List Nat := [116, 104, 114, 100]

/-- Bytes of the opcode name `"stackbot"`. -/
def OP_STACKBOT : List Nat := [115, 116, 97, 99, 107, 98, 111, 116]

/-- Loop body of `ct_str_is`, comparing `variable[i..]` against the
remaining bytes of the NUL-terminated `constant` (the list holds the
bytes of `constant` before its terminator). -/
def ct_str_is_at (v : Nat → Nat) : Nat → List Nat → Bool
  | _, [] => true
  | i, c :: cs => if v i = c then ct_str_is_at v (i + 1) cs else false

/-- Function `ct_str_is(variable, constant)`: iterates `while (constant[i])`
comparing bytes, returning False at the first mismatch and True when the
constant is exhausted.  Note it checks that `constant` is a byte prefix of
`variable`; it never looks at `variable[length(constant)]`. -/
def ct_str_is (v : Nat → Nat) (c : List Nat) : Bool := ct_str_is_at v 0 c

/-- Struct `ct_cmd` as the detector reads it from memory at the stored
address: the `uint32` tag `stored_magic`, the 16 `const_magic` bytes and
the 128 `payload` bytes as byte accessors, and the reinterpreting reads
`ct_cmd_int` (`*(volatile int32_t*)&cmd->payload[oft]`) and `ct_cmd_ptr`
(`*(Nat*)&cmd->payload[oft]`) as integer accessors of the same payload
(the byte-to-integer assembly is abstracted). -/
structure ct_cmd where
  stored_magic : Nat
  const_magic : Nat → Nat
  payload : Nat → Nat
  payload_int : Nat → Int
  payload_ptr : Nat → Nat

/-- Value of `sizeof(ct_cmd)`: 4 (magic) + 16 (const string) + 128
(payload) = 148 bytes, no padding. -/
def ct_cmd_sizeof : Nat := 148

/-- The process-wide mutable detector state: the globals `g_ct_active`,
`g_ct_curr_thread`, `g_ct_pagetab_L3`, `g_ct_stackbot`, `g_ct_stackend`
and `g_ct_last_cmd` (the address of the last command object, 0 for the
initial null pointer). -/
structure CtState where
  g_ct_active : Bool
  g_ct_curr_thread : Int
  g_ct_pagetab_L3 : ct_pagetab_L3
  g_ct_stackbot : Nat
  g_ct_stackend : Nat
  g_ct_last_cmd : Nat

/-- The initial values of the globals. -/
def ct_state0 : CtState :=
  { g_ct_active := false, g_ct_curr_thread := 0,
    g_ct_pagetab_L3 := ct_pagetab_L3_init,
    g_ct_stackbot := 0, g_ct_stackend := 0, g_ct_last_cmd := 0 }

/-- A diagnostic line emitted via `VG_(printf)` (each followed in the C
code by a captured stack trace, which is part of the same diagnostic):
a race report carrying the raw `g_ct_curr_thread`, faulting address,
access base and size and the raw owner byte (the C code prints the ids
minus one); the unknown-command warning; or a `--print-commands` echo. -/
inductive Diag where
  | race (curr : Int) (addr : Nat) (base : Nat) (size : Nat) (owner : Nat)
  | warnUnknown
  | echo (opcode : String)
deriving DecidableEq

/-- Function `ct_suppress`: suppress addresses in `[g_ct_stackend,
g_ct_stackbot)`, recomputing `g_ct_stackend` from the running thread's
stack (the external value `se`) once if the address lies below it, and
addresses inside the last command object `[g_ct_last_cmd,
g_ct_last_cmd + sizeof(ct_cmd))`.  Returns the verdict and the state
(whose `g_ct_stackend` may have been updated). -/
def ct_suppress (se : Nat) (s : CtState) (addr : Nat) : Bool × CtState :=
  if s.g_ct_stackend ≤ addr ∧ addr < s.g_ct_stackbot then
    (true, s)
  else if addr < s.g_ct_stackend then
    let s1 : CtState := { s with g_ct_stackend := se }
    if s1.g_ct_stackend ≤ addr ∧ addr < s1.g_ct_stackbot then (true, s1)
    else if s1.g_ct_last_cmd ≤ addr ∧ addr < s1.g_ct_last_cmd + ct_cmd_sizeof then (true, s1)
    else (false, s1)
  else if s.g_ct_last_cmd ≤ addr ∧ addr < s.g_ct_last_cmd + ct_cmd_sizeof then (true, s)
  else (false, s)

/-- Conversion of the `int` current thread id to the `unsigned char`
stored in `owning_thread` (C integer conversion: reduce mod 256). -/
def ct_to_byte (v : Int) : Nat := (v % 256).toNat

/-- One iteration of writing the owner byte for `addr`:
`page->owning_thread[BYTE_IN_PAGE(addr)] = g_ct_curr_thread`. -/
def ct_write_state (s : CtState) (addr : Nat) : CtState :=
  { s with g_ct_pagetab_L3 :=
      ct_set_owner s.g_ct_pagetab_L3 addr (ct_to_byte s.g_ct_curr_thread) }

/-- Loop of `ct_on_access` over the bytes of `[base, base+size)`, with
`i` the current offset and the third argument the number of bytes left.
For each byte: fetch the page (allocating), read the owner, and if the
owner is nonzero and differs from `g_ct_curr_thread` then either continue
(suppressed) or emit one race report and `break` (the remaining bytes,
including the current one, are not owner-updated); on a store the owner
byte is set to the current thread. -/
def ct_access_go (se : Nat) (base : Nat) (size : Nat) (store : Bool) :
    CtState → Nat → Nat → CtState × List Diag
  | s, _, 0 => (s, [])
  | s, i, n + 1 =>
    let addr := base + i
    let r := ct_get_page s.g_ct_pagetab_L3 addr
    let s1 : CtState := { s with g_ct_pagetab_L3 := r.1 }
    let owner := r.2.owning_thread (BYTE_IN_PAGE addr)
    if owner ≠ 0 ∧ (owner : Int) ≠ s1.g_ct_curr_thread then
      let sup := ct_suppress se s1 addr
      if sup.1 then
        let s2 := if store then ct_write_state sup.2 addr else sup.2
        ct_access_go se base size store s2 (i + 1) n
      else
        (sup.2, [Diag.race sup.2.g_ct_curr_thread addr base size owner])
    else
      let s2 := if store then ct_write_state s1 addr else s1
      ct_access_go se base size store s2 (i + 1) n

/-- Function `ct_on_access(base, size, store)`. -/
def ct_on_access (se : Nat) (s : CtState) (base : Nat) (size : Nat) (store : Bool) :
    CtState × List Diag :=
  ct_access_go se base size store s 0 size

/-- Function `ct_process_command`, for the command object located at
address `cmdAddr` with contents `cmd`: bail out (without touching
`g_ct_last_cmd`) unless `const_magic` matches `CONST_MAGIC`; otherwise
dispatch on the payload opcode via `ct_str_is` in source order, falling
through to the unknown-command warning; finally record
`g_ct_last_cmd = cmd`.  `pc` is the `--print-commands` option
(`clo_print_commands`); the echoed argument values are elided from the
`Diag.echo` payload. -/
def ct_process_command (pc : Bool) (se : Nat) (s : CtState) (cmdAddr : Nat)
    (cmd : ct_cmd) : CtState × List Diag :=
  if ¬ ct_str_is cmd.const_magic CONST_MAGIC then (s, [])
  else
    let res : CtState × List Diag :=
      if ct_str_is cmd.payload OP_BEGIN_FOR then
        (s, if pc then [Diag.echo "begin_for"] else [])
      else if ct_str_is cmd.payload OP_END_FOR then
        ({ s with g_ct_pagetab_L3 := ct_clear_pagetab s.g_ct_pagetab_L3,
                  g_ct_curr_thread := 0 },
         if pc then [Diag.echo "end_for"] else [])
      else if ct_str_is cmd.payload OP_ITER then
        ({ s with g_ct_active := true }, if pc then [Diag.echo "iter"] else [])
      else if ct_str_is cmd.payload OP_DONE then
        ({ s with g_ct_active := false }, if pc then [Diag.echo "done"] else [])
      else if ct_str_is cmd.payload OP_THRD then
        ({ s with g_ct_curr_thread := cmd.payload_int 4 + 1 }, [])
      else if ct_str_is cmd.payload OP_STACKBOT then
        ({ s with g_ct_stackbot := cmd.payload_ptr 8, g_ct_stackend := se },
         if pc then [Diag.echo "stackbot"] else [])
      else
        (s, [Diag.warnUnknown])
    ({ res.1 with g_ct_last_cmd := cmdAddr }, res.2)

/-- Hook `trace_load`: accesses are tracked only while `g_ct_active`. -/
def trace_load (se : Nat) (s : CtState) (addr : Nat) (size : Nat) :
    CtState × List Diag :=
  if s.g_ct_active then ct_on_access se s addr size false else (s, [])

/-- Function `ct_on_store` (also the body of `trace_store` and
`trace_modify`): first check the stored memory for the magic tag and
process the command if it matches; then, if the (possibly just updated)
`g_ct_active` holds, run ownership tracking over the stored range.
`cmd` is the memory readable at `addr` viewed as a `ct_cmd`. -/
def ct_on_store (pc : Bool) (se : Nat) (s : CtState) (addr : Nat) (size : Nat)
    (cmd : ct_cmd) : CtState × List Diag :=
  let r1 := if cmd.stored_magic = MAGIC
            then ct_process_command pc se s addr cmd
            else (s, [])
  if r1.1.g_ct_active then
    let r2 := ct_on_access se r1.1 addr size true
    (r2.1, r1.2 ++ r2.2)
  else r1

/-- One event delivered by the instrumentation host. -/
inductive CtEvent where
  | load (addr : Nat) (size : Nat)
  | store (addr : Nat) (size : Nat) (cmd : ct_cmd)
  | modify (addr : Nat) (size : Nat) (cmd : ct_cmd)

/-- The detector's reaction to one host event (`trace_load`,
`trace_store`, `trace_modify`). -/
def ct_step (pc : Bool) (se : Nat) (s : CtState) : CtEvent → CtState × List Diag
  | .load a n => trace_load se s a n
  | .store a n c => ct_on_store pc se s a n c
  | .modify a n c => ct_on_store pc se s a n c

/-- Byte `a` is a conflict for state `s`: its recorded owner is nonzero
and differs from the current thread. -/
abbrev ct_conflict (s : CtState) (a : Nat) : Prop :=
  ct_owner_of s.g_ct_pagetab_L3 a ≠ 0 ∧
  (ct_owner_of s.g_ct_pagetab_L3 a : Int) ≠ s.g_ct_curr_thread

/-- Byte `a` lies inside the command object recorded at `lc`. -/
abbrev ct_in_cmd (lc a : Nat) : Prop := lc ≤ a ∧ a < lc + ct_cmd_sizeof

/-- Helper building the byte-accessor of a concrete command field from an
explicit byte list (bytes past the list are zero). -/
def ct_bytes (l : List Nat) : Nat → Nat := fun i => l.getD i 0

/-- A concrete well-tagged command object with the given payload bytes,
integer argument and pointer argument. -/
def ct_mk_cmd (payload : List Nat) (k : Int) (p : Nat) : ct_cmd :=
  { stored_magic := MAGIC
    const_magic := ct_bytes CONST_MAGIC
    payload := ct_bytes payload
    payload_int := fun _ => k
    payload_ptr := fun _ => p }

/-! Arithmetic facts about the address slicing. -/

set_option maxRecDepth 10000

theorem ct_and_4095 (x : Nat) : x &&& 4095 = x % 4096 := by
  have h := Nat.and_pow_two_sub_one_eq_mod x 12
  norm_num at h
  exact h

theorem L2_PAGETAB_zero (a : Nat) : L2_PAGETAB a = 0 := by
  unfold L2_PAGETAB
  rw [Nat.shiftRight_eq_div_pow, Nat.shiftRight_eq_div_pow, Nat.div_div_eq_div_mul]
  have h : a % 2^32 < 2^24 * 2^12 :=
    lt_of_lt_of_le (Nat.mod_lt _ (by norm_num)) (by norm_num)
  rw [Nat.div_eq_of_lt h]
  decide

theorem L1_PAGETAB_eq (a : Nat) : L1_PAGETAB a = a % 2^32 / 2^24 := by
  unfold L1_PAGETAB
  rw [Nat.shiftRight_eq_div_pow, ct_and_4095]
  have h : a % 2^32 < 2^32 := Nat.mod_lt _ (by norm_num)
  norm_num
  omega

theorem PAGE_eq (a : Nat) : PAGE a = a % 2^32 / 2^12 % 4096 := by
  unfold PAGE
  rw [Nat.shiftRight_eq_div_pow, ct_and_4095]

theorem BYTE_IN_PAGE_eq (a : Nat) : BYTE_IN_PAGE a = a % 2^32 % 4096 := by
  unfold BYTE_IN_PAGE
  rw [ct_and_4095]

/-- The four slicing macros together determine exactly the low 32 bits of
the address: two addresses share an owner-id storage location iff they
agree mod 2^32 (the `(UInt)addr` casts discard the bits above). -/
theorem ct_cell_eq_iff (x y : Nat) :
    (L2_PAGETAB x = L2_PAGETAB y ∧ L1_PAGETAB x = L1_PAGETAB y ∧
     PAGE x = PAGE y ∧ BYTE_IN_PAGE x = BYTE_IN_PAGE y) ↔ x % 2^32 = y % 2^32 := by
  rw [L2_PAGETAB_zero, L2_PAGETAB_zero, L1_PAGETAB_eq, L1_PAGETAB_eq,
    PAGE_eq, PAGE_eq, BYTE_IN_PAGE_eq, BYTE_IN_PAGE_eq]
  generalize x % 2^32 = u
  generalize y % 2^32 = v
  constructor
  · rintro ⟨-, h1, h2, h3⟩
    rw [show (2:Nat)^24 = 16777216 from by norm_num] at h1
    rw [show (2:Nat)^12 = 4096 from by norm_num] at h2
    have k3u : u / 4096 / 4096 = u / 16777216 := by
      rw [Nat.div_div_eq_div_mul]
    have k3v : v / 4096 / 4096 = v / 16777216 := by
      rw [Nat.div_div_eq_div_mul]
    rw [← k3u, ← k3v] at h1
    calc u = 4096 * (4096 * (u / 4096 / 4096) + u / 4096 % 4096) + u % 4096 := by
            rw [Nat.div_add_mod, Nat.div_add_mod]
      _ = 4096 * (4096 * (v / 4096 / 4096) + v / 4096 % 4096) + v % 4096 := by
            rw [h1, h2, h3]
      _ = v := by rw [Nat.div_add_mod, Nat.div_add_mod]
  · rintro h
    simp [h]

/-! Facts about the Ownership Store operations. -/

/-- The page returned by `ct_get_page` holds, at the byte offset of the
requested address, exactly the owner id the table records for it. -/
theorem ct_get_page_owner (t : ct_pagetab_L3) (x : Nat) :
    ((ct_get_page t x).2).owning_thread (BYTE_IN_PAGE x) = ct_owner_of t x := rfl

/-- Lazy allocation in `ct_get_page` never changes any recorded owner. -/
theorem ct_owner_of_get_page (t : ct_pagetab_L3) (x a : Nat) :
    ct_owner_of (ct_get_page t x).1 a = ct_owner_of t a := by
  have hL2 : L2_PAGETAB a = L2_PAGETAB x := by simp [L2_PAGETAB_zero]
  by_cases h1 : L1_PAGETAB a = L1_PAGETAB x <;>
    by_cases hp : PAGE a = PAGE x <;>
      simp [ct_owner_of, ct_get_page, upd, hL2, h1, hp]

/-- Writing the owner byte of `x` sets the owner of every address that
shares `x`'s storage location (those equal to `x` mod 2^32) and changes
no other recorded owner. -/
theorem ct_owner_of_set (t : ct_pagetab_L3) (x : Nat) (v : Nat) (a : Nat) :
    ct_owner_of (ct_set_owner t x v) a =
      if x % 2^32 = a % 2^32 then v else ct_owner_of t a := by
  have hL2 : L2_PAGETAB a = L2_PAGETAB x := by simp [L2_PAGETAB_zero]
  by_cases hm : x % 2^32 = a % 2^32
  · obtain ⟨-, h1, hp, hb⟩ := (ct_cell_eq_iff a x).mpr hm.symm
    rw [if_pos hm]
    simp [ct_set_owner, ct_put_page, ct_get_page, ct_owner_of, upd, hL2, h1, hp, hb]
  · rw [if_neg hm]
    by_cases h1 : L1_PAGETAB a = L1_PAGETAB x
    · by_cases hp : PAGE a = PAGE x
      · by_cases hb : BYTE_IN_PAGE a = BYTE_IN_PAGE x
        · exact absurd (((ct_cell_eq_iff a x).mp ⟨hL2, h1, hp, hb⟩).symm) hm
        · simp [ct_set_owner, ct_put_page, ct_get_page, ct_owner_of, upd, hL2, h1, hp, hb]
      · simp [ct_set_owner, ct_put_page, ct_get_page, ct_owner_of, upd, hL2, h1, hp]
    · simp [ct_set_owner, ct_put_page, ct_get_page, ct_owner_of, upd, hL2, h1]

/-- The empty table records no owner anywhere. -/
theorem ct_owner_of_init (a : Nat) : ct_owner_of ct_pagetab_L3_init a = 0 := rfl

/-- `countSlots` of an everywhere-zero slot function is zero. -/
theorem countSlots_zero (f : Nat → Nat) (h : ∀ i, f i = 0) : ∀ n, countSlots f n = 0
  | 0 => rfl
  | n + 1 => by rw [countSlots, countSlots_zero f h n, h n]

/-- The empty table has no allocated nodes. -/
theorem ct_nodeCount_init : ct_nodeCount ct_pagetab_L3_init = 0 := by
  unfold ct_nodeCount
  exact countSlots_zero _ (fun i => rfl) 4096

/-! Facts about `ct_suppress`, owner-byte writes and the access loop. -/

@[simp] theorem ct_suppress_active (se : Nat) (s : CtState) (a : Nat) :
    (ct_suppress se s a).2.g_ct_active = s.g_ct_active := by
  simp only [ct_suppress]; split_ifs <;> rfl

@[simp] theorem ct_suppress_curr (se : Nat) (s : CtState) (a : Nat) :
    (ct_suppress se s a).2.g_ct_curr_thread = s.g_ct_curr_thread := by
  simp only [ct_suppress]; split_ifs <;> rfl

@[simp] theorem ct_suppress_pagetab (se : Nat) (s : CtState) (a : Nat) :
    (ct_suppress se s a).2.g_ct_pagetab_L3 = s.g_ct_pagetab_L3 := by
  simp only [ct_suppress]; split_ifs <;> rfl

@[simp] theorem ct_suppress_stackbot (se : Nat) (s : CtState) (a : Nat) :
    (ct_suppress se s a).2.g_ct_stackbot = s.g_ct_stackbot := by
  simp only [ct_suppress]; split_ifs <;> rfl

@[simp] theorem ct_suppress_last_cmd (se : Nat) (s : CtState) (a : Nat) :
    (ct_suppress se s a).2.g_ct_last_cmd = s.g_ct_last_cmd := by
  simp only [ct_suppress]; split_ifs <;> rfl

/-- With no recorded stack range (`g_ct_stackbot = 0`) and an address
outside the last command object, `ct_suppress` does not suppress. -/
theorem ct_suppress_false_of (se : Nat) (s : CtState) (a : Nat)
    (hb : s.g_ct_stackbot = 0) (hc : ¬ ct_in_cmd s.g_ct_last_cmd a) :
    (ct_suppress se s a).1 = false := by
  simp only [ct_in_cmd, ct_cmd_sizeof, not_and, not_lt] at hc
  simp only [ct_suppress, ct_cmd_sizeof]
  split_ifs with h1 h2 h3 h4 h5
  · exfalso; omega
  · exfalso; omega
  · exact absurd (hc h4.1) (by omega)
  · rfl
  · exact absurd (hc h5.1) (by omega)
  · rfl

/-- An address inside the last command object is always suppressed. -/
theorem ct_suppress_true_of_cmd (se : Nat) (s : CtState) (a : Nat)
    (hc : ct_in_cmd s.g_ct_last_cmd a) : (ct_suppress se s a).1 = true := by
  simp only [ct_in_cmd, ct_cmd_sizeof] at hc
  simp only [ct_suppress, ct_cmd_sizeof]
  split_ifs <;> rfl

@[simp] theorem ct_write_state_active (s : CtState) (x : Nat) :
    (ct_write_state s x).g_ct_active = s.g_ct_active := rfl

@[simp] theorem ct_write_state_curr (s : CtState) (x : Nat) :
    (ct_write_state s x).g_ct_curr_thread = s.g_ct_curr_thread := rfl

@[simp] theorem ct_write_state_stackbot (s : CtState) (x : Nat) :
    (ct_write_state s x).g_ct_stackbot = s.g_ct_stackbot := rfl

@[simp] theorem ct_write_state_last_cmd (s : CtState) (x : Nat) :
    (ct_write_state s x).g_ct_last_cmd = s.g_ct_last_cmd := rfl

/-- Effect of one owner-byte write on the recorded owners. -/
theorem ct_write_state_owner (s : CtState) (x a : Nat) :
    ct_owner_of (ct_write_state s x).g_ct_pagetab_L3 a =
      if x % 2^32 = a % 2^32 then ct_to_byte s.g_ct_curr_thread
      else ct_owner_of s.g_ct_pagetab_L3 a := by
  simp [ct_write_state, ct_owner_of_set]

/-- The access loop emits at most one diagnostic: the first reported
conflict ends the scan. -/
theorem ct_access_go_len (se base size : Nat) (store : Bool) :
    ∀ n i s, ((ct_access_go se base size store s i n).2).length ≤ 1 := by
  intro n
  induction n with
  | zero => intro i s; simp [ct_access_go]
  | succ n ih =>
    intro i s
    simp only [ct_access_go]
    split
    · split
      · exact ih _ _
      · simp
    · exact ih _ _

/-- The access loop never changes `g_ct_active`. -/
theorem ct_access_go_active (se base size : Nat) (store : Bool) :
    ∀ n i s, (ct_access_go se base size store s i n).1.g_ct_active = s.g_ct_active := by
  intro n
  induction n with
  | zero => intro i s; rfl
  | succ n ih =>
    intro i s
    simp only [ct_access_go]
    split
    · split
      · rw [ih]; split <;> simp
      · simp
    · rw [ih]; split <;> simp

/-- The access loop never changes `g_ct_curr_thread`. -/
theorem ct_access_go_curr (se base size : Nat) (store : Bool) :
    ∀ n i s, (ct_access_go se base size store s i n).1.g_ct_curr_thread
      = s.g_ct_curr_thread := by
  intro n
  induction n with
  | zero => intro i s; rfl
  | succ n ih =>
    intro i s
    simp only [ct_access_go]
    split
    · split
      · rw [ih]; split <;> simp
      · simp
    · rw [ih]; split <;> simp

/-- The access loop never changes `g_ct_stackbot`. -/
theorem ct_access_go_stackbot (se base size : Nat) (store : Bool) :
    ∀ n i s, (ct_access_go se base size store s i n).1.g_ct_stackbot
      = s.g_ct_stackbot := by
  intro n
  induction n with
  | zero => intro i s; rfl
  | succ n ih =>
    intro i s
    simp only [ct_access_go]
    split
    · split
      · rw [ih]; split <;> simp
      · simp
    · rw [ih]; split <;> simp

/-- The access loop never changes `g_ct_last_cmd`. -/
theorem ct_access_go_last_cmd (se base size : Nat) (store : Bool) :
    ∀ n i s, (ct_access_go se base size store s i n).1.g_ct_last_cmd
      = s.g_ct_last_cmd := by
  intro n
  induction n with
  | zero => intro i s; rfl
  | succ n ih =>
    intro i s
    simp only [ct_access_go]
    split
    · split
      · rw [ih]; split <;> simp
      · simp
    · rw [ih]; split <;> simp

/-- The access loop does not change the owner recorded for any address
whose storage location is not among the scanned bytes. -/
theorem ct_access_go_owner_outside (se base size : Nat) (store : Bool) (a : Nat) :
    ∀ n i s, (∀ k, k < n → (base + (i + k)) % 2^32 ≠ a % 2^32) →
      ct_owner_of (ct_access_go se base size store s i n).1.g_ct_pagetab_L3 a =
        ct_owner_of s.g_ct_pagetab_L3 a := by
  intro n
  induction n with
  | zero => intro i s _; rfl
  | succ n ih =>
    intro i s h
    have h0 : (base + i) % 2^32 ≠ a % 2^32 := by
      have := h 0 (Nat.succ_pos n); rwa [Nat.add_zero] at this
    have hsh : ∀ k, k < n → (base + ((i + 1) + k)) % 2^32 ≠ a % 2^32 := by
      intro k hk
      have := h (k + 1) (by omega)
      rwa [show i + (k + 1) = i + 1 + k by omega] at this
    simp only [ct_access_go]
    split
    · split
      · rw [ih (i + 1) _ hsh]
        split
        · rw [ct_write_state_owner, if_neg h0]
          simp [ct_owner_of_get_page]
        · simp [ct_owner_of_get_page]
      · simp [ct_owner_of_get_page]
    · rw [ih (i + 1) _ hsh]
      split
      · rw [ct_write_state_owner, if_neg h0]
        simp [ct_owner_of_get_page]
      · simp [ct_owner_of_get_page]

/-- A load (non-store) scan changes no recorded owner at all: it only
allocates zero-filled nodes. -/
theorem ct_access_go_load_owner (se base size : Nat) (a : Nat) :
    ∀ n i s, ct_owner_of (ct_access_go se base size false s i n).1.g_ct_pagetab_L3 a
      = ct_owner_of s.g_ct_pagetab_L3 a := by
  intro n
  induction n with
  | zero => intro i s; rfl
  | succ n ih =>
    intro i s
    simp only [ct_access_go]
    split
    · split
      · rw [ih]; simp [ct_owner_of_get_page]
      · simp [ct_owner_of_get_page]
    · rw [ih]; simp [ct_owner_of_get_page]

/-- A store scan that reports no conflict writes the current thread's
byte into every scanned location and changes nothing else. -/
theorem ct_access_go_store_owner (se base size : Nat) :
    ∀ n i s, (ct_access_go se base size true s i n).2 = [] →
      ∀ x, ct_owner_of (ct_access_go se base size true s i n).1.g_ct_pagetab_L3 x =
        if ∃ k, k < n ∧ (base + (i + k)) % 2^32 = x % 2^32
        then ct_to_byte s.g_ct_curr_thread
        else ct_owner_of s.g_ct_pagetab_L3 x := by
  intro n
  induction n with
  | zero =>
    intro i s _ x
    rw [if_neg (by rintro ⟨k, hk, -⟩; omega)]
    rfl
  | succ n ih =>
    intro i s hd x
    have hE : (∃ k, k < n + 1 ∧ (base + (i + k)) % 2^32 = x % 2^32) ↔
        ((base + i) % 2^32 = x % 2^32 ∨
         ∃ k, k < n ∧ (base + ((i + 1) + k)) % 2^32 = x % 2^32) := by
      constructor
      · rintro ⟨k, hk, hm⟩
        rcases Nat.eq_zero_or_pos k with rfl | hpos
        · left; rwa [Nat.add_zero] at hm
        · right
          exact ⟨k - 1, by omega, by rwa [show i + 1 + (k - 1) = i + k by omega]⟩
      · rintro (hm | ⟨k, hk, hm⟩)
        · exact ⟨0, by omega, by rwa [Nat.add_zero]⟩
        · exact ⟨k + 1, by omega, by rwa [show i + (k + 1) = i + 1 + k by omega]⟩
    simp only [ct_access_go] at hd ⊢
    split at hd
    next hcond =>
      rw [if_pos hcond]
      split at hd
      next hsup =>
        rw [if_pos hsup]
        rw [ih (i + 1) _ hd x]
        simp only [if_true, ct_write_state_curr, ct_suppress_curr,
          ct_write_state_owner, ct_suppress_pagetab, ct_owner_of_get_page]
        by_cases hA : (∃ k, k < n ∧ (base + (i + 1 + k)) % 2^32 = x % 2^32)
        · rw [if_pos hA, if_pos (hE.mpr (Or.inr hA))]
        · by_cases hC : ((base + i) % 2^32 = x % 2^32)
          · rw [if_neg hA, if_pos hC, if_pos (hE.mpr (Or.inl hC))]
          · rw [if_neg hA, if_neg hC, if_neg (fun h => ((hE.mp h).elim hC hA))]
      next hsup =>
        exact absurd hd (by simp)
    next hcond =>
      rw [if_neg hcond]
      rw [ih (i + 1) _ hd x]
      simp only [if_true, ct_write_state_curr, ct_write_state_owner,
        ct_owner_of_get_page]
      by_cases hA : (∃ k, k < n ∧ (base + (i + 1 + k)) % 2^32 = x % 2^32)
      · rw [if_pos hA, if_pos (hE.mpr (Or.inr hA))]
      · by_cases hC : ((base + i) % 2^32 = x % 2^32)
        · rw [if_neg hA, if_pos hC, if_pos (hE.mpr (Or.inl hC))]
        · rw [if_neg hA, if_neg hC, if_neg (fun h => ((hE.mp h).elim hC hA))]

/-- A scan whose every byte lies inside the last command object reports
nothing: every conflict is suppressed. -/
theorem ct_access_go_all_cmd (se base size : Nat) (store : Bool) :
    ∀ n i s, (∀ k, k < n → ct_in_cmd s.g_ct_last_cmd (base + (i + k))) →
      (ct_access_go se base size store s i n).2 = [] := by
  intro n
  induction n with
  | zero => intro i s _; rfl
  | succ n ih =>
    intro i s h
    have h0 : ct_in_cmd s.g_ct_last_cmd (base + i) := by
      have := h 0 (Nat.succ_pos n); rwa [Nat.add_zero] at this
    have hsh : ∀ k, k < n → ct_in_cmd s.g_ct_last_cmd (base + ((i + 1) + k)) := by
      intro k hk
      have := h (k + 1) (by omega)
      rwa [show i + (k + 1) = i + 1 + k by omega] at this
    simp only [ct_access_go]
    split
    · have hsup := ct_suppress_true_of_cmd se
        { s with g_ct_pagetab_L3 := (ct_get_page s.g_ct_pagetab_L3 (base + i)).1 }
        (base + i) h0
      rw [if_pos hsup]
      apply ih
      intro k hk
      have hx := hsh k hk
      split <;> simpa using hx
    · apply ih
      intro k hk
      have hx := hsh k hk
      split <;> simpa using hx

/-- First-conflict characterization of the scan: when no scanned byte is
suppressed (no recorded stack range, no byte inside the last command
object) and `k` is the first conflicting offset, the scan emits exactly
the one race report for byte `base + i + k`, carrying the current thread,
the access base and size, and that byte's recorded owner.  The bound
`n ≤ 512` reflects `MAX_DSIZE`: accessed ranges never alias mod 2^32. -/
theorem ct_access_go_first (se base size : Nat) (store : Bool) :
    ∀ n i s,
      s.g_ct_stackbot = 0 →
      (∀ k, k < n → ¬ ct_in_cmd s.g_ct_last_cmd (base + (i + k))) →
      n ≤ 512 →
      ∀ k, k < n → ct_conflict s (base + (i + k)) →
        (∀ j, j < k → ¬ ct_conflict s (base + (i + j))) →
        (ct_access_go se base size store s i n).2 =
          [Diag.race s.g_ct_curr_thread (base + (i + k)) base size
            (ct_owner_of s.g_ct_pagetab_L3 (base + (i + k)))] := by
  intro n
  induction n with
  | zero => intro i s _ _ _ k hk; omega
  | succ n ih =>
    intro i s hb hcmd hn k hk hconf hmin
    simp only [ct_access_go, ct_get_page_owner]
    rcases Nat.eq_zero_or_pos k with rfl | hkpos
    · have hc0 : ct_conflict s (base + i) := by rwa [Nat.add_zero] at hconf
      rw [if_pos hc0]
      have hcm0 : ¬ ct_in_cmd s.g_ct_last_cmd (base + i) := by
        have := hcmd 0 (Nat.succ_pos n); rwa [Nat.add_zero] at this
      have hsupf : (ct_suppress se
          { s with g_ct_pagetab_L3 := (ct_get_page s.g_ct_pagetab_L3 (base + i)).1 }
          (base + i)).1 = false :=
        ct_suppress_false_of se _ (base + i) hb hcm0
      rw [hsupf]
      simp
    · have hc0 : ¬ ct_conflict s (base + i) := by
        have := hmin 0 hkpos; rwa [Nat.add_zero] at this
      rw [if_neg hc0]
      set s2 := if store = true then
          ct_write_state
            { s with g_ct_pagetab_L3 := (ct_get_page s.g_ct_pagetab_L3 (base + i)).1 }
            (base + i)
        else
          { s with g_ct_pagetab_L3 := (ct_get_page s.g_ct_pagetab_L3 (base + i)).1 }
        with hs2
      have hcurr : s2.g_ct_curr_thread = s.g_ct_curr_thread := by
        rw [hs2]; split <;> rfl
      have hsb : s2.g_ct_stackbot = 0 := by
        rw [hs2]; split <;> exact hb
      have hlc : s2.g_ct_last_cmd = s.g_ct_last_cmd := by
        rw [hs2]; split <;> rfl
      have howner : ∀ y, (base + i) % 2^32 ≠ y % 2^32 →
          ct_owner_of s2.g_ct_pagetab_L3 y = ct_owner_of s.g_ct_pagetab_L3 y := by
        intro y hy
        rw [hs2]
        split
        · rw [ct_write_state_owner, if_neg hy]
          simp [ct_owner_of_get_page]
        · simp [ct_owner_of_get_page]
      have hneq : ∀ d, 0 < d → d ≤ 512 → (base + i) % 2^32 ≠ (base + (i + d)) % 2^32 := by
        intro d hd1 hd2 h
        rw [show (2:Nat)^32 = 4294967296 from by norm_num] at h
        omega
      have hconfEq : ∀ y, (base + i) % 2^32 ≠ y % 2^32 →
          (ct_conflict s2 y ↔ ct_conflict s y) := by
        intro y hy
        simp only [ct_conflict, howner y hy, hcurr]
      have hcmd2 : ∀ j, j < n → ¬ ct_in_cmd s2.g_ct_last_cmd (base + ((i + 1) + j)) := by
        intro j hj
        rw [hlc]
        have := hcmd (j + 1) (by omega)
        rwa [show i + (j + 1) = i + 1 + j by omega] at this
      have hconf2 : ct_conflict s2 (base + ((i + 1) + (k - 1))) := by
        rw [show i + 1 + (k - 1) = i + k by omega]
        exact (hconfEq _ (hneq k hkpos (by omega))).mpr hconf
      have hmin2 : ∀ j, j < k - 1 → ¬ ct_conflict s2 (base + ((i + 1) + j)) := by
        intro j hj
        rw [show i + 1 + j = i + (j + 1) by omega]
        rw [hconfEq _ (hneq (j + 1) (by omega) (by omega))]
        exact hmin (j + 1) (by omega)
      rw [ih (i + 1) s2 hsb hcmd2 (by omega) (k - 1) (by omega) hconf2 hmin2]
      rw [show i + 1 + (k - 1) = i + k by omega]
      rw [hcurr, howner _ (hneq k hkpos (by omega))]

/-! Facts about `ct_str_is` and `ct_process_command`. -/

/-- A successful `ct_str_is` comparison pins down the first byte. -/
theorem ct_str_is_first (v : Nat → Nat) (c : Nat) (cs : List Nat)
    (h : ct_str_is v (c :: cs) = true) : v 0 = c := by
  unfold ct_str_is ct_str_is_at at h
  by_cases hv : v 0 = c
  · exact hv
  · rw [if_neg hv] at h
    exact absurd h (by simp)

/-- `ct_str_is` fails as soon as the first byte differs. -/
theorem ct_str_is_ne_first (v : Nat → Nat) (c : Nat) (cs : List Nat)
    (h : v 0 ≠ c) : ct_str_is v (c :: cs) = false := by
  unfold ct_str_is ct_str_is_at
  rw [if_neg h]

/-- A command object whose constant identification string does not match
is ignored entirely: no state change (not even `g_ct_last_cmd`), no
diagnostic. -/
theorem ct_process_nomagic (pc : Bool) (se : Nat) (s : CtState) (a : Nat) (cmd : ct_cmd)
    (h : ct_str_is cmd.const_magic CONST_MAGIC = false) :
    ct_process_command pc se s a cmd = (s, []) := by
  unfold ct_process_command
  rw [if_pos (by simp [h])]

/-- Effect of a recognized `thrd` command. -/
theorem ct_process_thrd (pc : Bool) (se : Nat) (s : CtState) (a : Nat) (cmd : ct_cmd)
    (hm : ct_str_is cmd.const_magic CONST_MAGIC = true)
    (h : ct_str_is cmd.payload OP_THRD = true) :
    ct_process_command pc se s a cmd =
      ({ s with g_ct_curr_thread := cmd.payload_int 4 + 1, g_ct_last_cmd := a }, []) := by
  have h0 : cmd.payload 0 = 116 := ct_str_is_first _ _ _ (by simpa [OP_THRD] using h)
  have hb : ct_str_is cmd.payload OP_BEGIN_FOR = false := by
    unfold OP_BEGIN_FOR; exact ct_str_is_ne_first _ _ _ (by rw [h0]; decide)
  have he : ct_str_is cmd.payload OP_END_FOR = false := by
    unfold OP_END_FOR; exact ct_str_is_ne_first _ _ _ (by rw [h0]; decide)
  have hi : ct_str_is cmd.payload OP_ITER = false := by
    unfold OP_ITER; exact ct_str_is_ne_first _ _ _ (by rw [h0]; decide)
  have hd : ct_str_is cmd.payload OP_DONE = false := by
    unfold OP_DONE; exact ct_str_is_ne_first _ _ _ (by rw [h0]; decide)
  simp [ct_process_command, hm, hb, he, hi, hd, h]

/-- Effect of a recognized `end_for` command. -/
theorem ct_process_end_for (pc : Bool) (se : Nat) (s : CtState) (a : Nat) (cmd : ct_cmd)
    (hm : ct_str_is cmd.const_magic CONST_MAGIC = true)
    (h : ct_str_is cmd.payload OP_END_FOR = true) :
    ct_process_command pc se s a cmd =
      ({ s with g_ct_pagetab_L3 := ct_pagetab_L3_init, g_ct_curr_thread := 0,
                g_ct_last_cmd := a },
       if pc then [Diag.echo "end_for"] else []) := by
  have h0 : cmd.payload 0 = 101 := ct_str_is_first _ _ _ (by simpa [OP_END_FOR] using h)
  have hb : ct_str_is cmd.payload OP_BEGIN_FOR = false := by
    unfold OP_BEGIN_FOR; exact ct_str_is_ne_first _ _ _ (by rw [h0]; decide)
  simp [ct_process_command, ct_clear_pagetab, hm, hb, h]

/-- Effect of a recognized `iter` command. -/
theorem ct_process_iter (pc : Bool) (se : Nat) (s : CtState) (a : Nat) (cmd : ct_cmd)
    (hm : ct_str_is cmd.const_magic CONST_MAGIC = true)
    (h : ct_str_is cmd.payload OP_ITER = true) :
    ct_process_command pc se s a cmd =
      ({ s with g_ct_active := true, g_ct_last_cmd := a },
       if pc then [Diag.echo "iter"] else []) := by
  have h0 : cmd.payload 0 = 105 := ct_str_is_first _ _ _ (by simpa [OP_ITER] using h)
  have hb : ct_str_is cmd.payload OP_BEGIN_FOR = false := by
    unfold OP_BEGIN_FOR; exact ct_str_is_ne_first _ _ _ (by rw [h0]; decide)
  have he : ct_str_is cmd.payload OP_END_FOR = false := by
    unfold OP_END_FOR; exact ct_str_is_ne_first _ _ _ (by rw [h0]; decide)
  simp [ct_process_command, hm, hb, he, h]

/-- Effect of a recognized `done` command. -/
theorem ct_process_done (pc : Bool) (se : Nat) (s : CtState) (a : Nat) (cmd : ct_cmd)
    (hm : ct_str_is cmd.const_magic CONST_MAGIC = true)
    (h : ct_str_is cmd.payload OP_DONE = true) :
    ct_process_command pc se s a cmd =
      ({ s with g_ct_active := false, g_ct_last_cmd := a },
       if pc then [Diag.echo "done"] else []) := by
  have h0 : cmd.payload 0 = 100 := ct_str_is_first _ _ _ (by simpa [OP_DONE] using h)
  have hb : ct_str_is cmd.payload OP_BEGIN_FOR = false := by
    unfold OP_BEGIN_FOR; exact ct_str_is_ne_first _ _ _ (by rw [h0]; decide)
  have he : ct_str_is cmd.payload OP_END_FOR = false := by
    unfold OP_END_FOR; exact ct_str_is_ne_first _ _ _ (by rw [h0]; decide)
  have hi : ct_str_is cmd.payload OP_ITER = false := by
    unfold OP_ITER; exact ct_str_is_ne_first _ _ _ (by rw [h0]; decide)
  simp [ct_process_command, hm, hb, he, hi, h]

/-- A tagged command matching none of the six opcodes: exactly one
unknown-command warning, and the only state change is `g_ct_last_cmd`. -/
theorem ct_process_unknown (pc : Bool) (se : Nat) (s : CtState) (a : Nat) (cmd : ct_cmd)
    (hm : ct_str_is cmd.const_magic CONST_MAGIC = true)
    (h1 : ct_str_is cmd.payload OP_BEGIN_FOR = false)
    (h2 : ct_str_is cmd.payload OP_END_FOR = false)
    (h3 : ct_str_is cmd.payload OP_ITER = false)
    (h4 : ct_str_is cmd.payload OP_DONE = false)
    (h5 : ct_str_is cmd.payload OP_THRD = false)
    (h6 : ct_str_is cmd.payload OP_STACKBOT = false) :
    ct_process_command pc se s a cmd =
      ({ s with g_ct_last_cmd := a }, [Diag.warnUnknown]) := by
  simp [ct_process_command, hm, h1, h2, h3, h4, h5, h6]

/-- While inactive, a command whose payload is not an `iter` leaves
`g_ct_active` false. -/
theorem ct_process_active_false (pc : Bool) (se : Nat) (s : CtState) (a : Nat)
    (cmd : ct_cmd) (hs : s.g_ct_active = false)
    (hiter : ct_str_is cmd.payload OP_ITER = false) :
    (ct_process_command pc se s a cmd).1.g_ct_active = false := by
  unfold ct_process_command
  split_ifs <;> simp_all

/-- Any command other than a recognized `end_for` leaves the Ownership
Store untouched. -/
theorem ct_process_pagetab (pc : Bool) (se : Nat) (s : CtState) (a : Nat)
    (cmd : ct_cmd) (hend : ct_str_is cmd.payload OP_END_FOR = false) :
    (ct_process_command pc se s a cmd).1.g_ct_pagetab_L3 = s.g_ct_pagetab_L3 := by
  unfold ct_process_command
  split_ifs <;> simp_all

/-- Conversion facts for the owner byte written from the thread id. -/
theorem ct_to_byte_small (c : Int) (h0 : 0 ≤ c) (h1 : c < 256) :
    (ct_to_byte c : Int) = c := by
  unfold ct_to_byte
  rw [Int.emod_eq_of_lt h0 h1]
  exact Int.toNat_of_nonneg h0

/-- The stored owner byte is always below 256. -/
theorem ct_to_byte_lt (c : Int) : ct_to_byte c < 256 := by
  unfold ct_to_byte
  have h := Int.emod_lt_of_pos c (show (0:Int) < 256 by decide)
  have h2 := Int.emod_nonneg c (show (256:Int) ≠ 0 by decide)
  omega

/-! Concrete command objects used as witnesses and counterexamples. -/

/-- A tagged `end_for` command object. -/
def ct_cmd_end_for : ct_cmd := ct_mk_cmd OP_END_FOR 0 0

/-- A tagged `thrd` command object with integer argument 4. -/
def ct_cmd_thrd4 : ct_cmd := ct_mk_cmd OP_THRD 4 0

/-- A tagged command object whose payload bytes spell `"iteration"`. -/
def ct_cmd_iteration : ct_cmd :=
  ct_mk_cmd [105, 116, 101, 114, 97, 116, 105, 111, 110] 0 0

/-- A tagged command object whose payload bytes spell `"blah"`. -/
def ct_cmd_blah : ct_cmd := ct_mk_cmd [98, 108, 97, 104] 0 0

/-! The claims. -/

/-- Claim C2: the spec (and the source comment above the page-table
macros) state that the L3/L2/L1/page/byte-offset slicing addresses the
full 48-bit range injectively.  The `(UInt)addr` cast in every macro
truncates the address to 32 bits, so the distinct addresses 0 and 2^32
(both below 2^48) receive identical indices at every level, and writing
owner 7 for address 0 makes `owner_of(2^32)` read 7. -/
theorem ct_claim_C2 :
    L2_PAGETAB 0 = L2_PAGETAB (2^32) ∧ L1_PAGETAB 0 = L1_PAGETAB (2^32) ∧
    PAGE 0 = PAGE (2^32) ∧ BYTE_IN_PAGE 0 = BYTE_IN_PAGE (2^32) ∧
    ct_owner_of (ct_set_owner ct_pagetab_L3_init 0 7) (2^32) = 7 := by decide

/-- Claim C3: immediately after a correctly tagged `end_for` command is
processed, `owner_of(a) = 0` for every address, the total count of
allocated page-table nodes is 0, and `current_worker` is reset to 0. -/
theorem ct_claim_C3 (pc : Bool) (se : Nat) (s : CtState) (a : Nat) (cmd : ct_cmd)
    (hm : ct_str_is cmd.const_magic CONST_MAGIC = true)
    (h : ct_str_is cmd.payload OP_END_FOR = true) :
    (∀ x, ct_owner_of (ct_process_command pc se s a cmd).1.g_ct_pagetab_L3 x = 0) ∧
    ct_nodeCount (ct_process_command pc se s a cmd).1.g_ct_pagetab_L3 = 0 ∧
    (ct_process_command pc se s a cmd).1.g_ct_curr_thread = 0 := by
  rw [ct_process_end_for pc se s a cmd hm h]
  exact ⟨fun x => rfl, ct_nodeCount_init, rfl⟩

/-- Witness for C3 at a concrete `end_for` command. -/
theorem ct_claim_C3_witness :
    ct_owner_of (ct_process_command false 0 ct_state0 9000
      ct_cmd_end_for).1.g_ct_pagetab_L3 12345 = 0 ∧
    ct_nodeCount (ct_process_command false 0 ct_state0 9000
      ct_cmd_end_for).1.g_ct_pagetab_L3 = 0 ∧
    (ct_process_command false 0 ct_state0 9000 ct_cmd_end_for).1.g_ct_curr_thread = 0 := by
  have h := ct_claim_C3 false 0 ct_state0 9000 ct_cmd_end_for (by decide) (by decide)
  exact ⟨h.1 12345, h.2.1, h.2.2⟩

/-- Claim C4: a correctly tagged `thrd` command with argument N sets
`current_worker = N + 1`; `iter` sets `active = true`; `done` sets
`active = false`; in each case every other control field (`active` or
`current_worker` respectively, the stack bounds, the Ownership Store) is
unchanged, with `g_ct_last_cmd` updated to the command object as after
every recognized command. -/
theorem ct_claim_C4 (pc : Bool) (se : Nat) (s : CtState) (a : Nat) (cmd : ct_cmd)
    (hm : ct_str_is cmd.const_magic CONST_MAGIC = true) :
    (ct_str_is cmd.payload OP_THRD = true →
      (ct_process_command pc se s a cmd).1.g_ct_curr_thread = cmd.payload_int 4 + 1 ∧
      (ct_process_command pc se s a cmd).1.g_ct_active = s.g_ct_active ∧
      (ct_process_command pc se s a cmd).1.g_ct_stackbot = s.g_ct_stackbot ∧
      (ct_process_command pc se s a cmd).1.g_ct_stackend = s.g_ct_stackend ∧
      (ct_process_command pc se s a cmd).1.g_ct_pagetab_L3 = s.g_ct_pagetab_L3 ∧
      (ct_process_command pc se s a cmd).1.g_ct_last_cmd = a) ∧
    (ct_str_is cmd.payload OP_ITER = true →
      (ct_process_command pc se s a cmd).1.g_ct_active = true ∧
      (ct_process_command pc se s a cmd).1.g_ct_curr_thread = s.g_ct_curr_thread ∧
      (ct_process_command pc se s a cmd).1.g_ct_stackbot = s.g_ct_stackbot ∧
      (ct_process_command pc se s a cmd).1.g_ct_stackend = s.g_ct_stackend ∧
      (ct_process_command pc se s a cmd).1.g_ct_pagetab_L3 = s.g_ct_pagetab_L3 ∧
      (ct_process_command pc se s a cmd).1.g_ct_last_cmd = a) ∧
    (ct_str_is cmd.payload OP_DONE = true →
      (ct_process_command pc se s a cmd).1.g_ct_active = false ∧
      (ct_process_command pc se s a cmd).1.g_ct_curr_thread = s.g_ct_curr_thread ∧
      (ct_process_command pc se s a cmd).1.g_ct_stackbot = s.g_ct_stackbot ∧
      (ct_process_command pc se s a cmd).1.g_ct_stackend = s.g_ct_stackend ∧
      (ct_process_command pc se s a cmd).1.g_ct_pagetab_L3 = s.g_ct_pagetab_L3 ∧
      (ct_process_command pc se s a cmd).1.g_ct_last_cmd = a) := by
  refine ⟨fun h => ?_, fun h => ?_, fun h => ?_⟩
  · rw [ct_process_thrd pc se s a cmd hm h]
    exact ⟨rfl, rfl, rfl, rfl, rfl, rfl⟩
  · rw [ct_process_iter pc se s a cmd hm h]
    exact ⟨rfl, rfl, rfl, rfl, rfl, rfl⟩
  · rw [ct_process_done pc se s a cmd hm h]
    exact ⟨rfl, rfl, rfl, rfl, rfl, rfl⟩

/-- Witness for C4 at a concrete `thrd` command with argument 4. -/
theorem ct_claim_C4_witness :
    (ct_process_command false 0 ct_state0 9000 ct_cmd_thrd4).1.g_ct_curr_thread = 5 ∧
    (ct_process_command false 0 ct_state0 9000 ct_cmd_thrd4).1.g_ct_active = false ∧
    (ct_process_command false 0 ct_state0 9000 ct_cmd_thrd4).1.g_ct_last_cmd = 9000 := by
  have h := (ct_claim_C4 false 0 ct_state0 9000 ct_cmd_thrd4 (by decide)).1 (by decide)
  exact ⟨by rw [h.1]; decide, by rw [h.2.1]; decide, h.2.2.2.2.2⟩

/-- Claim C5 counterexample: recognition is not an exact comparison of
the NUL-terminated opcode name.  A tagged command whose payload spells
`"iteration"` — which is none of the six opcode names — still has the
`iter` effect applied (tracking becomes active). -/
theorem ct_claim_C5_cex :
    (ct_process_command false 0 ct_state0 9000 ct_cmd_iteration).1.g_ct_active = true ∧
    ct_state0.g_ct_active = false := by decide

/-- Claim C5 (amended): opcode recognition compares the known opcode name
byte-by-byte as a prefix of the payload (`ct_str_is` stops at the
constant's terminator and never checks that the payload ends there), with
the six opcodes tested in source order; in particular every payload that
`"iter"` prefixes — such as `"iteration"` — triggers exactly the `iter`
effect. -/
theorem ct_claim_C5 (pc : Bool) (se : Nat) (s : CtState) (a : Nat) (cmd : ct_cmd)
    (hm : ct_str_is cmd.const_magic CONST_MAGIC = true)
    (h : ct_str_is cmd.payload OP_ITER = true) :
    (ct_process_command pc se s a cmd).1.g_ct_active = true ∧
    (ct_process_command pc se s a cmd).1.g_ct_curr_thread = s.g_ct_curr_thread ∧
    (ct_process_command pc se s a cmd).1.g_ct_stackbot = s.g_ct_stackbot ∧
    (ct_process_command pc se s a cmd).1.g_ct_stackend = s.g_ct_stackend ∧
    (ct_process_command pc se s a cmd).1.g_ct_pagetab_L3 = s.g_ct_pagetab_L3 ∧
    (ct_process_command pc se s a cmd).1.g_ct_last_cmd = a := by
  rw [ct_process_iter pc se s a cmd hm h]
  exact ⟨rfl, rfl, rfl, rfl, rfl, rfl⟩

/-- Witness for the amended C5 at the `"iteration"` payload. -/
theorem ct_claim_C5_witness :
    (ct_process_command false 0 ct_state0 9000 ct_cmd_iteration).1.g_ct_active = true :=
  (ct_claim_C5 false 0 ct_state0 9000 ct_cmd_iteration (by decide) (by decide)).1

/-- Claim C6 counterexample: an unknown opcode does produce exactly one
protocol warning, but the state is not fully unchanged: `g_ct_last_cmd`
is updated to the command object's address (here from 0 to 9000). -/
theorem ct_claim_C6_cex :
    (ct_process_command false 0 ct_state0 9000 ct_cmd_blah).2 = [Diag.warnUnknown] ∧
    (ct_process_command false 0 ct_state0 9000 ct_cmd_blah).1.g_ct_last_cmd = 9000 ∧
    ct_state0.g_ct_last_cmd = 0 := by decide

/-- Claim C6 (amended): a tagged command whose opcode matches none of the
six known names produces exactly one protocol-warning diagnostic and
leaves `active`, `current_worker`, the stack bounds and the Ownership
Store unchanged; `g_ct_last_cmd` is updated to the command object, as it
is after every tagged command. -/
theorem ct_claim_C6 (pc : Bool) (se : Nat) (s : CtState) (a : Nat) (cmd : ct_cmd)
    (hm : ct_str_is cmd.const_magic CONST_MAGIC = true)
    (h1 : ct_str_is cmd.payload OP_BEGIN_FOR = false)
    (h2 : ct_str_is cmd.payload OP_END_FOR = false)
    (h3 : ct_str_is cmd.payload OP_ITER = false)
    (h4 : ct_str_is cmd.payload OP_DONE = false)
    (h5 : ct_str_is cmd.payload OP_THRD = false)
    (h6 : ct_str_is cmd.payload OP_STACKBOT = false) :
    (ct_process_command pc se s a cmd).2 = [Diag.warnUnknown] ∧
    (ct_process_command pc se s a cmd).1.g_ct_active = s.g_ct_active ∧
    (ct_process_command pc se s a cmd).1.g_ct_curr_thread = s.g_ct_curr_thread ∧
    (ct_process_command pc se s a cmd).1.g_ct_stackbot = s.g_ct_stackbot ∧
    (ct_process_command pc se s a cmd).1.g_ct_stackend = s.g_ct_stackend ∧
    (ct_process_command pc se s a cmd).1.g_ct_pagetab_L3 = s.g_ct_pagetab_L3 ∧
    (ct_process_command pc se s a cmd).1.g_ct_last_cmd = a := by
  rw [ct_process_unknown pc se s a cmd hm h1 h2 h3 h4 h5 h6]
  exact ⟨rfl, rfl, rfl, rfl, rfl, rfl, rfl⟩

/-- Witness for the amended C6 at the `"blah"` payload. -/
theorem ct_claim_C6_witness :
    (ct_process_command false 0 ct_state0 9000 ct_cmd_blah).2 = [Diag.warnUnknown] ∧
    (ct_process_command false 0 ct_state0 9000 ct_cmd_blah).1.g_ct_curr_thread = 0 := by
  have h := ct_claim_C6 false 0 ct_state0 9000 ct_cmd_blah (by decide) (by decide)
    (by decide) (by decide) (by decide) (by decide) (by decide)
  exact ⟨h.1, by rw [h.2.2.1]; rfl⟩

/-- Concrete state for the C8 witness: bytes 4096 and 4097 owned by
worker id 1, current thread 2, no stack range, null last command. -/
def ct_c8_state : CtState :=
  { g_ct_active := true, g_ct_curr_thread := 2,
    g_ct_pagetab_L3 := ct_set_owner (ct_set_owner ct_pagetab_L3_init 4096 1) 4097 1,
    g_ct_stackbot := 0, g_ct_stackend := 0, g_ct_last_cmd := 0 }

/-- Claim C8: every single access emits at most one race diagnostic, and
when the access is not suppressed (no recorded stack range, no scanned
byte inside the last command object; sizes bounded by `MAX_DSIZE = 512`)
and some scanned byte conflicts, exactly one report is produced, naming
the first conflicting byte together with its recorded owner. -/
theorem ct_claim_C8 (se : Nat) (s : CtState) (base size : Nat) (store : Bool) :
    (ct_on_access se s base size store).2.length ≤ 1 ∧
    (s.g_ct_stackbot = 0 →
     (∀ i, i < size → ¬ ct_in_cmd s.g_ct_last_cmd (base + i)) →
     size ≤ 512 →
     (∃ i, i < size ∧ ct_conflict s (base + i)) →
     ∃ i, i < size ∧ ct_conflict s (base + i) ∧
       (∀ j, j < i → ¬ ct_conflict s (base + j)) ∧
       (ct_on_access se s base size store).2 =
         [Diag.race s.g_ct_curr_thread (base + i) base size
           (ct_owner_of s.g_ct_pagetab_L3 (base + i))]) := by
  constructor
  · exact ct_access_go_len se base size store size 0 s
  · intro hb hcmd hsz hex
    obtain ⟨hk, hconf⟩ := Nat.find_spec hex
    refine ⟨Nat.find hex, hk, hconf, ?_, ?_⟩
    · intro j hj hc
      exact Nat.find_min hex hj ⟨by omega, hc⟩
    · have h1 := ct_access_go_first se base size store size 0 s hb
        (fun j hj => by simpa using hcmd j hj) hsz (Nat.find hex) hk
        (by simpa using hconf)
        (fun j hj => by
          have := Nat.find_min hex hj
          simpa using fun hc => this ⟨by omega, hc⟩)
      simpa using h1

/-- Witness for C8: scanning two conflicting bytes produces exactly the
one report for the first of them. -/
theorem ct_claim_C8_witness :
    (ct_on_access 0 ct_c8_state 4096 2 false).2.length ≤ 1 ∧
    ∃ i, i < 2 ∧ ct_conflict ct_c8_state (4096 + i) ∧
      (∀ j, j < i → ¬ ct_conflict ct_c8_state (4096 + j)) ∧
      (ct_on_access 0 ct_c8_state 4096 2 false).2 =
        [Diag.race ct_c8_state.g_ct_curr_thread (4096 + i) 4096 2
          (ct_owner_of ct_c8_state.g_ct_pagetab_L3 (4096 + i))] := by
  have h := ct_claim_C8 0 ct_c8_state 4096 2 false
  exact ⟨h.1, h.2 (by decide) (by decide) (by decide) ⟨0, by decide⟩⟩

/-- Ownership preservation through one store event: when no stored byte
shares the storage location of `x` and the store is not a recognized
`end_for` command, the owner recorded for `x` is unchanged. -/
theorem ct_on_store_owner_outside (pc : Bool) (se : Nat) (s : CtState)
    (b n : Nat) (c : ct_cmd) (x : Nat)
    (hw : ∀ i, i < n → (b + i) % 2^32 ≠ x % 2^32)
    (hnend : ¬ (c.stored_magic = MAGIC ∧ ct_str_is c.const_magic CONST_MAGIC = true ∧
      ct_str_is c.payload OP_END_FOR = true)) :
    ct_owner_of (ct_on_store pc se s b n c).1.g_ct_pagetab_L3 x =
      ct_owner_of s.g_ct_pagetab_L3 x := by
  have hw0 : ∀ k, k < n → (b + (0 + k)) % 2^32 ≠ x % 2^32 := by
    intro k hk; simpa using hw k hk
  by_cases hm : c.stored_magic = MAGIC
  · have hpt : (ct_process_command pc se s b c).1.g_ct_pagetab_L3 = s.g_ct_pagetab_L3 := by
      by_cases hcm : ct_str_is c.const_magic CONST_MAGIC = true
      · apply ct_process_pagetab
        cases hef : ct_str_is c.payload OP_END_FOR
        · rfl
        · exact absurd ⟨hm, hcm, hef⟩ hnend
      · rw [ct_process_nomagic pc se s b c (by simpa using hcm)]
    simp only [ct_on_store, if_pos hm]
    split
    · have h := ct_access_go_owner_outside se b n true x n 0
        (ct_process_command pc se s b c).1 hw0
      simp only [ct_on_access] at h ⊢
      rw [h, hpt]
    · rw [hpt]
  · simp only [ct_on_store, if_neg hm]
    split
    · have h := ct_access_go_owner_outside se b n true x n 0 s hw0
      simp only [ct_on_access] at h ⊢
      rw [h]
    · rfl

/-- Concrete state for the C10 counterexample: detector inactive, byte
4096 owned by worker id 1. -/
def ct_c10_state : CtState :=
  { g_ct_active := false, g_ct_curr_thread := 5,
    g_ct_pagetab_L3 := ct_set_owner ct_pagetab_L3_init 4096 1,
    g_ct_stackbot := 0, g_ct_stackend := 0, g_ct_last_cmd := 0 }

/-- Claim C10 counterexample: while inactive, a store event carrying a
tagged `end_for` command does change owner ids — it clears the Ownership
Store, resetting byte 4096's owner from 1 to 0. -/
theorem ct_claim_C10_cex :
    ct_c10_state.g_ct_active = false ∧
    ct_owner_of ct_c10_state.g_ct_pagetab_L3 4096 = 1 ∧
    ct_owner_of (ct_on_store false 0 ct_c10_state 8192 4
      ct_cmd_end_for).1.g_ct_pagetab_L3 4096 = 0 := by decide

/-- Claim C10 (amended): while inactive, loads touch nothing and emit
nothing; stores without the magic tag touch nothing and emit nothing;
tagged command stores still decode and act exactly as
`ct_process_command` (mutating control state, and for `end_for` clearing
the Ownership Store) — provided the command is not an `iter`, which by
setting `active` subjects its own store to ownership tracking. -/
theorem ct_claim_C10 :
    (∀ se (s : CtState) (addr size : Nat), s.g_ct_active = false →
      trace_load se s addr size = (s, [])) ∧
    (∀ pc se (s : CtState) (addr size : Nat) (cmd : ct_cmd), s.g_ct_active = false →
      cmd.stored_magic ≠ MAGIC → ct_on_store pc se s addr size cmd = (s, [])) ∧
    (∀ pc se (s : CtState) (addr size : Nat) (cmd : ct_cmd), s.g_ct_active = false →
      cmd.stored_magic = MAGIC → ct_str_is cmd.payload OP_ITER = false →
      ct_on_store pc se s addr size cmd = ct_process_command pc se s addr cmd) := by
  refine ⟨?_, ?_, ?_⟩
  · intro se s addr size h
    unfold trace_load
    rw [if_neg (by simp [h])]
  · intro pc se s addr size cmd h hm
    simp only [ct_on_store, if_neg hm]
    rw [if_neg (by simp [h])]
  · intro pc se s addr size cmd h hm hiter
    have hact := ct_process_active_false pc se s addr cmd h hiter
    simp only [ct_on_store, if_pos hm]
    rw [if_neg (by simp [hact])]

/-- Witness for the amended C10: an inactive-state `end_for` store equals
plain command processing. -/
theorem ct_claim_C10_witness :
    ct_on_store false 0 ct_c10_state 8192 4 ct_cmd_end_for =
      ct_process_command false 0 ct_c10_state 8192 ct_cmd_end_for :=
  (ct_claim_C10).2.2 false 0 ct_c10_state 8192 4 ct_cmd_end_for
    (by decide) (by decide) (by decide)

/-- An event neither writing any byte that shares the storage location of
`x` nor carrying a recognized `end_for` command. -/
def ct_untouched (e : CtEvent) (x : Nat) : Prop :=
  match e with
  | .load _ _ => True
  | .store b n c =>
      (∀ i, i < n → (b + i) % 2^32 ≠ x % 2^32) ∧
      ¬ (c.stored_magic = MAGIC ∧ ct_str_is c.const_magic CONST_MAGIC = true ∧
         ct_str_is c.payload OP_END_FOR = true)
  | .modify b n c =>
      (∀ i, i < n → (b + i) % 2^32 ≠ x % 2^32) ∧
      ¬ (c.stored_magic = MAGIC ∧ ct_str_is c.const_magic CONST_MAGIC = true ∧
         ct_str_is c.payload OP_END_FOR = true)

/-- Concrete state for the C1 counterexample: tracking active, byte 4096
owned by worker id 1, current thread 2. -/
def ct_c1_state : CtState :=
  { g_ct_active := true, g_ct_curr_thread := 2,
    g_ct_pagetab_L3 := ct_set_owner ct_pagetab_L3_init 4096 1,
    g_ct_stackbot := 0, g_ct_stackend := 0, g_ct_last_cmd := 0 }

/-- Claim C1 counterexample: a 1-byte store by worker 2 to a byte owned
by worker 1 reports the conflict and then `break`s before the owner
update, so after the access the byte is still owned by 1, not by the
writer — refuting "ownership always reflects the most recent writer,
regardless of whether a conflict was reported". -/
theorem ct_claim_C1_cex :
    ct_c1_state.g_ct_active = true ∧
    ct_c1_state.g_ct_curr_thread = 2 ∧
    (ct_on_access 0 ct_c1_state 4096 1 true).2.length = 1 ∧
    ct_owner_of (ct_on_access 0 ct_c1_state 4096 1 true).1.g_ct_pagetab_L3 4096 = 1 := by
  decide

/-- Claim C1 (amended): (1) for a store or modify event (not tagged as a
command) while active with worker W (a byte-range worker id), if no
conflict diagnostic is reported during the access then afterwards
`owner_of(a) = W` for every byte of the range; (2) `owner_of(a)` is
preserved by every event that does not write a byte sharing `a`'s
storage location and is not an `end_for` command — so ownership persists
until the next write to `a` or the next `end_for`. -/
theorem ct_claim_C1 :
    (∀ pc se (s : CtState) (addr size : Nat) (cmd : ct_cmd),
      s.g_ct_active = true →
      cmd.stored_magic ≠ MAGIC →
      0 ≤ s.g_ct_curr_thread → s.g_ct_curr_thread < 256 →
      (ct_on_store pc se s addr size cmd).2 = [] →
      ∀ i, i < size →
        (ct_owner_of (ct_on_store pc se s addr size cmd).1.g_ct_pagetab_L3 (addr + i) : Int)
          = s.g_ct_curr_thread) ∧
    (∀ pc se (s : CtState) (e : CtEvent) (x : Nat),
      ct_untouched e x →
      ct_owner_of (ct_step pc se s e).1.g_ct_pagetab_L3 x
        = ct_owner_of s.g_ct_pagetab_L3 x) := by
  constructor
  · intro pc se s addr size cmd ha hm h0 h1 hd i hi
    simp only [ct_on_store, if_neg hm] at hd ⊢
    rw [if_pos (by simpa using ha)] at hd ⊢
    simp only [List.nil_append] at hd ⊢
    simp only [ct_on_access] at hd ⊢
    rw [ct_access_go_store_owner se addr size size 0 s hd (addr + i),
      if_pos ⟨i, hi, by rw [Nat.zero_add]⟩]
    exact ct_to_byte_small s.g_ct_curr_thread h0 h1
  · intro pc se s e x hu
    cases e with
    | load b n =>
      simp only [ct_step, trace_load]
      split
      · exact ct_access_go_load_owner se b n x n 0 s
      · rfl
    | store b n c => exact ct_on_store_owner_outside pc se s b n c x hu.1 hu.2
    | modify b n c => exact ct_on_store_owner_outside pc se s b n c x hu.1 hu.2

/-- An untagged store (no magic value at the stored address). -/
def ct_cmd_plain : ct_cmd :=
  { stored_magic := 0, const_magic := fun _ => 0, payload := fun _ => 0,
    payload_int := fun _ => 0, payload_ptr := fun _ => 0 }

/-- Concrete state for the C1 witness: tracking active, worker id 1,
empty Ownership Store. -/
def ct_c1w_state : CtState :=
  { g_ct_active := true, g_ct_curr_thread := 1,
    g_ct_pagetab_L3 := ct_pagetab_L3_init,
    g_ct_stackbot := 0, g_ct_stackend := 0, g_ct_last_cmd := 0 }

/-- Witness for the amended C1: a clean 1-byte store by worker 1 leaves
the byte owned by worker 1. -/
theorem ct_claim_C1_witness :
    (ct_owner_of (ct_on_store false 0 ct_c1w_state 4096 1
      ct_cmd_plain).1.g_ct_pagetab_L3 (4096 + 0) : Int) = ct_c1w_state.g_ct_curr_thread :=
  (ct_claim_C1).1 false 0 ct_c1w_state 4096 1 ct_cmd_plain (by decide) (by decide)
    (by decide) (by decide) (by decide) 0 (by decide)

/-- A tagged `thrd` command object with integer argument 0. -/
def ct_cmd_thrd0 : ct_cmd := ct_mk_cmd OP_THRD 0 0

/-- Concrete state for the C7 counterexample and witness: tracking
active, no worker yet, empty Ownership Store. -/
def ct_c7_state : CtState :=
  { g_ct_active := true, g_ct_curr_thread := 0,
    g_ct_pagetab_L3 := ct_pagetab_L3_init,
    g_ct_stackbot := 0, g_ct_stackend := 0, g_ct_last_cmd := 0 }

/-- Claim C7 counterexample: a store recognized as a `thrd` command,
performed while tracking is active, does change the owner ids of the
command object's own bytes: after the event, byte 8192 (the command's
first byte) is owned by the new current worker 1, where it was unowned
before. -/
theorem ct_claim_C7_cex :
    ct_owner_of ct_c7_state.g_ct_pagetab_L3 8192 = 0 ∧
    ct_owner_of (ct_on_store false 0 ct_c7_state 8192 4
      ct_cmd_thrd0).1.g_ct_pagetab_L3 8192 = 1 := by decide

/-- Every tagged command (constant marker matching) records itself as
`g_ct_last_cmd`, whatever its opcode. -/
theorem ct_process_last_cmd (pc : Bool) (se : Nat) (s : CtState) (a : Nat)
    (cmd : ct_cmd) (hcm : ct_str_is cmd.const_magic CONST_MAGIC = true) :
    (ct_process_command pc se s a cmd).1.g_ct_last_cmd = a := by
  unfold ct_process_command
  rw [if_neg (by simp [hcm])]

/-- Claim C7 (amended): a store recognized as a command (magic tag and
constant marker both match) updates control state and is exempt from
conflict *reporting* — its bytes lie inside the just-recorded
`g_ct_last_cmd` object, so every conflict on them is suppressed and the
event emits no diagnostic beyond the command processing's own output —
but whenever the detector is active after the command is processed, the
store still passes through ownership tracking, setting the owner of
every stored byte to the post-command current worker truncated to a
byte; when the detector is inactive after processing, the event is
exactly command processing (which itself touches the Ownership Store
only through `end_for`'s clear). -/
theorem ct_claim_C7 :
    (∀ pc se (s : CtState) (addr size : Nat) (cmd : ct_cmd),
      cmd.stored_magic = MAGIC →
      ct_str_is cmd.const_magic CONST_MAGIC = true →
      (ct_process_command pc se s addr cmd).1.g_ct_active = true →
      size ≤ ct_cmd_sizeof →
      (ct_on_store pc se s addr size cmd).2 = (ct_process_command pc se s addr cmd).2 ∧
      ∀ i, i < size →
        ct_owner_of (ct_on_store pc se s addr size cmd).1.g_ct_pagetab_L3 (addr + i)
          = ct_to_byte (ct_process_command pc se s addr cmd).1.g_ct_curr_thread) ∧
    (∀ pc se (s : CtState) (addr size : Nat) (cmd : ct_cmd),
      cmd.stored_magic = MAGIC →
      ct_str_is cmd.const_magic CONST_MAGIC = true →
      (ct_process_command pc se s addr cmd).1.g_ct_active = false →
      ct_on_store pc se s addr size cmd = ct_process_command pc se s addr cmd) := by
  constructor
  · intro pc se s addr size cmd hm hcm ha hsz
    have hlast : (ct_process_command pc se s addr cmd).1.g_ct_last_cmd = addr :=
      ct_process_last_cmd pc se s addr cmd hcm
    have hcmd : ∀ k, k < size → ct_in_cmd
        (ct_process_command pc se s addr cmd).1.g_ct_last_cmd (addr + (0 + k)) := by
      intro k hk
      rw [hlast]
      simp only [ct_in_cmd, ct_cmd_sizeof] at *
      omega
    have hd : (ct_access_go se addr size true (ct_process_command pc se s addr cmd).1
        0 size).2 = [] :=
      ct_access_go_all_cmd se addr size true size 0 _ hcmd
    simp only [ct_on_store, if_pos hm]
    rw [if_pos ha]
    constructor
    · simp only [ct_on_access]
      simp [hd]
    · intro i hi
      simp only [ct_on_access]
      rw [ct_access_go_store_owner se addr size size 0 _ hd (addr + i),
        if_pos ⟨i, hi, by rw [Nat.zero_add]⟩]
  · intro pc se s addr size cmd hm hcm hna
    simp only [ct_on_store, if_pos hm]
    rw [if_neg (by simp [hna])]

/-- Witness for the amended C7, exercising two different opcodes: a
recognized `thrd 4` store over 4 bytes while active emits nothing and
leaves its own first byte owned by 5 (= 4+1); a recognized
unknown-opcode store while active emits only the protocol warning and
leaves its own first byte owned by the current worker 2. -/
theorem ct_claim_C7_witness :
    (ct_on_store false 0 ct_c7_state 8192 4 ct_cmd_thrd4).2 = [] ∧
    ct_owner_of (ct_on_store false 0 ct_c7_state 8192 4
      ct_cmd_thrd4).1.g_ct_pagetab_L3 (8192 + 0) = 5 ∧
    (ct_on_store false 0 ct_c1_state 8192 4 ct_cmd_blah).2 = [Diag.warnUnknown] ∧
    ct_owner_of (ct_on_store false 0 ct_c1_state 8192 4
      ct_cmd_blah).1.g_ct_pagetab_L3 (8192 + 0) = 2 := by
  have h1 := (ct_claim_C7).1 false 0 ct_c7_state 8192 4 ct_cmd_thrd4
    (by decide) (by decide) (by decide) (by decide)
  have h2 := (ct_claim_C7).1 false 0 ct_c1_state 8192 4 ct_cmd_blah
    (by decide) (by decide) (by decide) (by decide)
  refine ⟨by rw [h1.1]; decide, by rw [h1.2 0 (by decide)]; decide,
    by rw [h2.1]; decide, by rw [h2.2 0 (by decide)]; decide⟩

/-- One-byte scan of a non-conflicting byte: no diagnostic; on a store
the owner byte is written. -/
theorem ct_access_go_one (se base size : Nat) (store : Bool) (i : Nat) (s : CtState)
    (h : ¬ ct_conflict s (base + i)) :
    ct_access_go se base size store s i 1 =
      (if store = true then
        ct_write_state
          { s with g_ct_pagetab_L3 := (ct_get_page s.g_ct_pagetab_L3 (base + i)).1 }
          (base + i)
      else
        { s with g_ct_pagetab_L3 := (ct_get_page s.g_ct_pagetab_L3 (base + i)).1 },
      []) := by
  simp only [ct_access_go, ct_get_page_owner]
  rw [if_neg h]

/-- Concrete state for the C9 counterexample: tracking active, fresh
region. -/
def ct_c9_state : CtState :=
  { g_ct_active := true, g_ct_curr_thread := 0,
    g_ct_pagetab_L3 := ct_pagetab_L3_init,
    g_ct_stackbot := 0, g_ct_stackend := 0, g_ct_last_cmd := 0 }

/-- A tagged `thrd` command object with integer argument 255. -/
def ct_cmd_thrd255 : ct_cmd := ct_mk_cmd OP_THRD 255 0

/-- Claim C9 counterexample: after `thrd 255` the current worker is 256;
a subsequent 1-byte write records owner `(256) mod 256 = 0` — i.e. the
byte is recorded as *unowned* — and the worker's own re-access is NOT
reported as a conflict (no diagnostic at all), contradicting the claim
that such re-accesses are reported. -/
theorem ct_claim_C9_cex :
    (ct_process_command false 0 ct_c9_state 9000 ct_cmd_thrd255).1.g_ct_curr_thread = 256 ∧
    ct_owner_of (ct_on_access 0 (ct_process_command false 0 ct_c9_state 9000
      ct_cmd_thrd255).1 4096 1 true).1.g_ct_pagetab_L3 4096 = 0 ∧
    (ct_on_access 0 (ct_on_access 0 (ct_process_command false 0 ct_c9_state 9000
      ct_cmd_thrd255).1 4096 1 true).1 4096 1 false).2 = [] := by decide

/-- Claim C9 (amended): when `current_worker = c ≥ 256` (a `thrd N` with
N + 1 ≥ 256), a write records the wrapped byte `c mod 256`, which never
compares equal to `c`.  When `c mod 256 ≠ 0`, the worker's own re-access
of a byte it wrote is therefore reported as a conflict (the wrap is
silent, never rejected); but when `c mod 256 = 0` the byte is recorded
as unowned and no conflict is reported at all. -/
theorem ct_claim_C9 (se : Nat) (s : CtState) (base : Nat)
    (hc256 : 256 ≤ s.g_ct_curr_thread)
    (hown : ct_owner_of s.g_ct_pagetab_L3 base = 0)
    (hb : s.g_ct_stackbot = 0)
    (hcmd : ¬ ct_in_cmd s.g_ct_last_cmd base) :
    (s.g_ct_curr_thread % 256 ≠ 0 →
      ct_owner_of (ct_on_access se s base 1 true).1.g_ct_pagetab_L3 base
        = ct_to_byte s.g_ct_curr_thread ∧
      ct_to_byte s.g_ct_curr_thread ≠ 0 ∧
      (ct_to_byte s.g_ct_curr_thread : Int) ≠ s.g_ct_curr_thread ∧
      (ct_on_access se (ct_on_access se s base 1 true).1 base 1 false).2 =
        [Diag.race s.g_ct_curr_thread base base 1 (ct_to_byte s.g_ct_curr_thread)]) ∧
    (s.g_ct_curr_thread % 256 = 0 →
      ct_owner_of (ct_on_access se s base 1 true).1.g_ct_pagetab_L3 base = 0 ∧
      (ct_on_access se (ct_on_access se s base 1 true).1 base 1 false).2 = []) := by
  have hnc : ¬ ct_conflict s (base + 0) := by
    intro hc
    rw [Nat.add_zero] at hc
    exact hc.1 hown
  have hw := ct_access_go_one se base 1 true 0 s hnc
  rw [if_pos rfl] at hw
  set s2 := (ct_on_access se s base 1 true).1 with hs2
  have hs2' : s2 = ct_write_state
      { s with g_ct_pagetab_L3 := (ct_get_page s.g_ct_pagetab_L3 (base + 0)).1 }
      (base + 0) := by
    rw [hs2]
    show (ct_access_go se base 1 true s 0 1).1 = _
    rw [hw]
  have howner1 : ct_owner_of s2.g_ct_pagetab_L3 base = ct_to_byte s.g_ct_curr_thread := by
    rw [hs2', ct_write_state_owner, if_pos (by rw [Nat.add_zero])]
  have hcur2 : s2.g_ct_curr_thread = s.g_ct_curr_thread := by
    rw [hs2']; simp [ct_write_state]
  have hsb2 : s2.g_ct_stackbot = 0 := by
    rw [hs2']; simpa [ct_write_state] using hb
  have hlc2 : s2.g_ct_last_cmd = s.g_ct_last_cmd := by
    rw [hs2']; simp [ct_write_state]
  refine ⟨fun hm => ?_, fun hm => ?_⟩
  · have hb0 : ct_to_byte s.g_ct_curr_thread ≠ 0 := by unfold ct_to_byte; omega
    have hbc : (ct_to_byte s.g_ct_curr_thread : Int) ≠ s.g_ct_curr_thread := by
      have hlt := ct_to_byte_lt s.g_ct_curr_thread
      omega
    refine ⟨howner1, hb0, hbc, ?_⟩
    have hconf2 : ct_conflict s2 (base + (0 + 0)) := by
      constructor
      · simp only [Nat.add_zero, Nat.zero_add]
        rw [howner1]
        exact hb0
      · simp only [Nat.add_zero, Nat.zero_add]
        rw [howner1, hcur2]
        exact hbc
    have h1 := ct_access_go_first se base 1 false 1 0 s2 hsb2
      (fun k hk => by
        have hk0 : k = 0 := by omega
        subst hk0
        simp only [Nat.add_zero, Nat.zero_add]
        rw [hlc2]
        exact hcmd)
      (by omega) 0 (by omega) hconf2 (fun j hj => absurd hj (by omega))
    show (ct_access_go se base 1 false s2 0 1).2 = _
    rw [h1]
    simp only [Nat.add_zero, Nat.zero_add]
    rw [hcur2, howner1]
  · have hbz : ct_to_byte s.g_ct_curr_thread = 0 := by unfold ct_to_byte; omega
    refine ⟨by rw [howner1, hbz], ?_⟩
    have hnc2 : ¬ ct_conflict s2 (base + 0) := by
      intro hc
      rw [Nat.add_zero] at hc
      exact hc.1 (by rw [howner1, hbz])
    have hw2 := ct_access_go_one se base 1 false 0 s2 hnc2
    show (ct_access_go se base 1 false s2 0 1).2 = _
    rw [hw2]

/-- Concrete state for the C9 witness: current thread 257 (a `thrd 256`),
fresh Ownership Store. -/
def ct_c9w_state : CtState :=
  { g_ct_active := true, g_ct_curr_thread := 257,
    g_ct_pagetab_L3 := ct_pagetab_L3_init,
    g_ct_stackbot := 0, g_ct_stackend := 0, g_ct_last_cmd := 0 }

/-- Witness for the amended C9: worker 257 writes a byte, which records
owner 1 (= 257 mod 256); the worker's own re-access is reported as a
race between "thread 257" and recorded owner 1. -/
theorem ct_claim_C9_witness :
    ct_owner_of (ct_on_access 0 ct_c9w_state 4096 1 true).1.g_ct_pagetab_L3 4096 = 1 ∧
    (ct_on_access 0 (ct_on_access 0 ct_c9w_state 4096 1 true).1 4096 1 false).2 =
      [Diag.race 257 4096 4096 1 1] := by
  have h := (ct_claim_C9 0 ct_c9w_state 4096 (by decide) (by decide) (by decide)
    (by decide)).1 (by decide)
  refine ⟨?_, ?_⟩
  · rw [h.1]; decide
  · rw [h.2.2.2]; decide
